import Mathlib

/-!
Verification of the reboot-the-earth location risk-score pipeline against its
natural-language specification.

Numeric values are modelled as exact rationals (`ℚ`); the JavaScript source
performs only comparisons, multiplication by constants, and additions on these
values, so rationals reproduce the arithmetic exactly.  Where the JavaScript values
`undefined` and `NaN` matter (missing-key lookups) values are wrapped in the
`JSVal` type.  Components of the backend (`server.py`, `pre_compute.py`) are
not part of the available sources; they are modelled from the specification
and marked `Modelled from the spec:` in their doc comments.
-/

namespace RebootTheEarth

/-! ## Frontend display transforms (from the sources) -/

/-- From `burn-areas-sidebar.jsx`:
`const normalizeToTen = (value) => (value < 1 ? value * 10 : value);`
Also the body of `normalizeThreatRating` in `app/page.jsx`. -/
def normalizeToTen (value : ℚ) : ℚ :=
  if value < 1 then value * 10 else value

/-- From `burn-areas-sidebar.jsx`, `StatBadge`:
`const normalizedValue = normalizeToTen(value);` — the number rendered on the
badge (string formatting by `toFixed(2)` elided; the numeric value shown). -/
def statBadgeValue (value : ℚ) : ℚ :=
  normalizeToTen value

/-- From `burn-areas-sidebar.jsx`, Feasibility Score block:
`normalizeToTen(area["preliminary-feasability-score"]).toFixed(2)` — the
numeric value rendered (formatting elided). -/
def sidebarFeasibilityValue (score : ℚ) : ℚ :=
  normalizeToTen score

/-- From `burn-map.jsx`, feasibility line of the marker popup:
`const normalized = score < 1 ? score * 9 + 1 : score;`. -/
def mapPopupFeasibilityValue (score : ℚ) : ℚ :=
  if score < 1 then score * 9 + 1 else score

/-- From `burn-map.jsx`, marker rendering:
`const normalizedRating = threatRating < 1 ? threatRating * 10 : threatRating;`
— the number rendered as `normalizedRating.toFixed(2)/10` in the popup and
passed to `getThreatColor` for the marker colour. -/
def burnMapNormalizedRating (threatRating : ℚ) : ℚ :=
  if threatRating < 1 then threatRating * 10 else threatRating

/-- The threshold part of `getThreatColor` in `burn-map.jsx`: the hex colour
chosen for an already-normalized level on the 0–10 scale. -/
def mapThreatThresholdColor (normalizedLevel : ℚ) : String :=
  if normalizedLevel ≥ 8 then "#dc2626"
  else if normalizedLevel ≥ 6 then "#ea580c"
  else if normalizedLevel ≥ 4 then "#f59e0b"
  else if normalizedLevel ≥ 2 then "#84cc16"
  else "#22c55e"

/-- From `burn-map.jsx`:
`const getThreatColor = (threatLevel) => { const normalizedLevel = threatLevel < 1 ? threatLevel * 10 : threatLevel; ... }`. -/
def mapGetThreatColor (threatLevel : ℚ) : String :=
  mapThreatThresholdColor (if threatLevel < 1 then threatLevel * 10 else threatLevel)

/-- From `burn-map.jsx`, marker construction:
`const color = getThreatColor(normalizedRating);` where
`normalizedRating` is `burnMapNormalizedRating area["calculated-threat-rating"]`. -/
def burnMapMarkerColor (calculatedThreatRating : ℚ) : String :=
  mapGetThreatColor (burnMapNormalizedRating calculatedThreatRating)

/-! ## JavaScript value semantics for missing-key lookups -/

/-- A JavaScript numeric-ish value: a number, `undefined` (a missing property
read), or `NaN`. -/
inductive JSVal where
  | num (q : ℚ)
  | undefined
  | nan
deriving DecidableEq, Repr

/-- JavaScript `v < 1`: comparisons against `undefined` and `NaN` are false. -/
def JSVal.ltOne : JSVal → Bool
  | .num q => decide (q < 1)
  | .undefined => false
  | .nan => false

/-- JavaScript property read `area[k]` on an object whose numeric fields are
the association list `fields`: a present key yields its number, an absent key
yields `undefined`. -/
def getField (fields : List (String × ℚ)) (k : String) : JSVal :=
  match fields.lookup k with
  | some q => .num q
  | none => .undefined

/-- JavaScript `v.toFixed(2)` as the exact numeric value it renders (the
decimal string is `(q * 100).round / 100` printed to two places): on a number
it succeeds; on `undefined` it throws a `TypeError`; on `NaN` it renders the
string with no numeric value, kept as an explicit marker. -/
inductive ToFixedResult where
  | renders (q : ℚ)
  | rendersNaN
  | typeError
deriving DecidableEq, Repr

def jsToFixed2 : JSVal → ToFixedResult
  | .num q => .renders ((round (q * 100) : ℚ) / 100)
  | .undefined => .typeError
  | .nan => .rendersNaN

/-- Evaluation of `normalizeToTen` on a JavaScript value: with `undefined` or
`NaN` the guard `value < 1` is false and the value is returned unchanged. -/
def normalizeToTenJS (value : JSVal) : JSVal :=
  if value.ltOne then
    match value with
    | .num q => .num (q * 10)
    | v => v
  else value

/-- The feasibility expression of the map popup applied to a JavaScript value:
`score < 1 ? score * 9 + 1 : score` — with `undefined` or `NaN` the guard is
false and the value is returned unchanged. -/
def mapPopupFeasibilityJS (score : JSVal) : JSVal :=
  if score.ltOne then
    match score with
    | .num q => .num (q * 9 + 1)
    | v => v
  else score

/-- The rendered sidebar Feasibility Score for an area with numeric fields
`fields`: `normalizeToTen(area["preliminary-feasability-score"]).toFixed(2)`
(from `burn-areas-sidebar.jsx`). -/
def sidebarFeasibilityRender (fields : List (String × ℚ)) : ToFixedResult :=
  jsToFixed2 (normalizeToTenJS (getField fields "preliminary-feasability-score"))

/-- The rendered map popup feasibility for an area with numeric fields
`fields`: `score = area["preliminary-feasability-score"]; (score < 1 ? score * 9 + 1 : score).toFixed(2)`
(from `burn-map.jsx`). -/
def mapPopupFeasibilityRender (fields : List (String × ℚ)) : ToFixedResult :=
  jsToFixed2 (mapPopupFeasibilityJS (getField fields "preliminary-feasability-score"))

/-! ## The `getData` fetch utility (from `lib/get-data.js`) -/

/-- A JSON value as parsed by `response.json()`. -/
inductive Json where
  | null
  | bool (b : Bool)
  | num (q : ℚ)
  | str (s : String)
  | arr (xs : List Json)
  | obj (fields : List (String × Json))

/-- JavaScript truthiness of an environment variable: set and nonempty. -/
def jsTruthyEnv : Option String → Bool
  | some s => !s.isEmpty
  | none => false

/-- JavaScript `a || b` on environment-variable strings: the first operand when
it is truthy, the second otherwise. -/
def jsOrEnv (a b : Option String) : Option String :=
  if jsTruthyEnv a then a else b

/-- From `get-data.js`: strip a single trailing slash, `apiUrl.replace(/\/$/, "")`. -/
def dropTrailingSlash (s : String) : String :=
  if s.endsWith "/" then s.dropRight 1 else s

/-- From `get-data.js`: strip a single leading slash, `endpoint.replace(/^\//, "")`. -/
def dropLeadingSlash (s : String) : String :=
  if s.startsWith "/" then s.drop 1 else s

/-- From `get-data.js`: the URL passed to `fetch` — the endpoint as-is when it
starts with `http`, otherwise base plus endpoint with slashes normalized. -/
def fullUrl (apiUrl endpoint : String) : String :=
  if endpoint.startsWith "http" then endpoint
  else dropTrailingSlash apiUrl ++ "/" ++ dropLeadingSlash endpoint

/-- Outcome of the `fetch` call made by `getData` (the network and JSON
parsing are external effects; the outcome records whether the promise
rejected, and otherwise the `ok` flag, status data, and the result of
`response.json()` — `none` meaning the body failed to parse as JSON). -/
inductive FetchOutcome where
  | reject (msg : String)
  | respond (ok : Bool) (status : Nat) (statusText : String) (body : Option Json)

/-- From `get-data.js`, `getData(endpoint, options)`:
reads `process.env.NEXT_PUBLIC_API_URL || process.env.API_URL`, throws when no
API URL is configured; fetches (outcome supplied as `outcome`; the request URL
is `fullUrl`); throws on a non-ok response before reading the body; throws a
wrapped message on a JSON `SyntaxError`; rethrows a fetch rejection; and
returns the parsed body otherwise. `Except.error` models a thrown `Error`. -/
def getData (nextPublicApiUrl apiUrlVar : Option String) (endpoint : String)
    (outcome : FetchOutcome) : Except String Json :=
  match jsOrEnv nextPublicApiUrl apiUrlVar with
  | none => .error "environment variable is not set"
  | some apiUrl =>
    if apiUrl.isEmpty then .error "environment variable is not set"
    else
      match outcome with
      | .reject msg => .error msg
      | .respond ok status statusText body =>
        if !ok then
          .error ("API request failed: " ++ toString status ++ " " ++ statusText)
        else
          match body with
          | none => .error "Failed to parse JSON response"
          | some j => .ok j

/-- Characterization helper: the parsed JSON body that `getData` can return —
present exactly when the fetch resolved with `ok` and the body parsed. -/
def FetchOutcome.parsedJson : FetchOutcome → Option Json
  | .respond true _ _ (some j) => some j
  | _ => none

/-- Boolean success test for the `Except` result of `getData`. -/
def exceptOk {ε α : Type} : Except ε α → Bool
  | .ok _ => true
  | .error _ => false

/-! ## Backend core, modelled from the specification

The backend sources (`server.py`, `pre_compute.py`, `neighbors.py`) are not
among the available source files — only their README and their frontend
callers are.  The definitions below are therefore modelled from the
specification (sections 3–7), as their doc comments state. -/

/-- Clamp a rational to the canonical `[0,1]` score interval. -/
def clamp01 (x : ℚ) : ℚ := max 0 (min 1 x)

/-- Modelled from the spec: §4.5 normalization rule — "any externally-supplied
value already expressed on `[0,10]` is divided by 10 before combination",
resolved once at ingestion (a value above 1 is taken to be on the 0–10
scale, matching the read-side heuristic used throughout the frontend). -/
def normalizeIngest (v : ℚ) : ℚ := if 1 < v then v / 10 else v

/-- The eleven qualitative statistics dimensions of §3 — exactly the keys the
sidebar reads from `area.statistics`. -/
def elevenKeys : List String :=
  ["safety", "fire-behavior", "resistance-to-containment",
   "ignition-procedures-and-methods", "prescribed-fire-duration",
   "smoke-management", "number-and-dependence-of-activities",
   "management-organizations", "treatment-resource-objectives",
   "constraints", "project-logistics"]

/-- The logistics-oriented factors combined by the feasibility score (§4.5). -/
def feasibilityKeys : List String :=
  ["management-organizations", "project-logistics", "constraints"]

/-- Modelled from the spec: §4.4/§3 statistics schema validation (the
server-side validator is not among the available sources) — the validated
object carries exactly the eleven required keys; a missing key is filled with
the neutral default `0.5`; a present value outside `[0,1]` is likewise
replaced by the neutral default (the re-prompt attempt of §4.4 is elided;
this is its documented second-failure fallback). -/
def validateStatistics (raw : List (String × ℚ)) : List (String × ℚ) :=
  elevenKeys.map fun k =>
    (k, match raw.lookup k with
        | some v => if 0 ≤ v ∧ v ≤ 1 then v else 1/2
        | none => 1/2)

/-- Daily weather aggregates of a `WeatherSnapshot` (§3). -/
structure WeatherData where
  tempMean : List ℚ
  windMean : List ℚ
  precip : List ℚ
deriving DecidableEq, Repr

/-- Weather field of a `BurnArea`: a snapshot, or the explicit `unavailable`
sentinel (§3, §4.3). -/
inductive Weather where
  | snapshot (data : WeatherData)
  | unavailable
deriving DecidableEq, Repr

/-- Result record of the Composite Score Calculator (§4.5). -/
structure ComputeResult where
  calculatedThreatRating : ℚ
  preliminaryFeasibilityScore : ℚ
deriving DecidableEq, Repr

/-- Modelled from the spec: §4.5 Composite Score Calculator, pure function
`compute(statistics, weather, riskProbability, population, valueEstimate)`.
`calculated-threat-rating` is a weighted combination of the risk probability
(weight `wRisk`, primary signal) and the mean of the eleven statistics factors
(weight `wStats`, secondary modifiers), clamped to `[0,1]`; the weights are
the tunable configuration of §9.  `preliminary-feasibility-score` combines
the logistics-oriented factors independently of the threat rating.  The
calculator receives canonical `[0,1]` inputs (ingestion normalization happens
before it, §4.5). -/
def compute (wRisk wStats : ℚ) (statistics : String → ℚ) (weather : Weather)
    (riskProbability : ℚ) (population : Nat) (valueEstimate : ℚ) : ComputeResult :=
  { calculatedThreatRating :=
      clamp01 (wRisk * riskProbability + wStats * ((elevenKeys.map statistics).sum / 11)),
    preliminaryFeasibilityScore :=
      clamp01 ((feasibilityKeys.map statistics).sum / 3) }

/-- The persisted/cacheable unit (§3).  Dates are kept as strings; `id` is a
numeric identifier.  All score fields are stored on the canonical `[0,1]`
scale. -/
structure BurnArea where
  id : Nat
  name : String
  coordinates : ℚ × ℚ
  statistics : List (String × ℚ)
  threatRating : ℚ
  calculatedThreatRating : ℚ
  preliminaryFeasibilityScore : ℚ
  totalPopulation : Nat
  totalValueEstimate : ℚ
  lastBurnDate : String
  weather : Weather
  nearbyTowns : List (String × Nat)
deriving DecidableEq, Repr

/-- Modelled from the spec: §4.1 — the settled results of the concurrent
fan-out to the four upstream sources, `none` recording a failure or timeout of
that adapter.  The risk probability may arrive pre-scaled on `[0,10]`
(normalized at ingestion, §4.5). -/
structure UpstreamResults where
  geocode : Option String
  weather : Option WeatherData
  statsRaw : Option (List (String × ℚ))
  riskProbability : Option ℚ
deriving Repr

/-- All four upstream sources failed (§4.1: a fully-failed computation). -/
def allFailed (r : UpstreamResults) : Bool :=
  r.geocode.isNone && r.weather.isNone && r.statsRaw.isNone && r.riskProbability.isNone

/-- At least one upstream source failed, so the response is degraded (§4.1). -/
def degradedFlag (r : UpstreamResults) : Bool :=
  r.geocode.isNone || r.weather.isNone || r.statsRaw.isNone || r.riskProbability.isNone

/-- Modelled from the spec: §4.1/§7 Request Orchestrator assembly after the
fan-out has settled.  A fully-failed computation yields `none` (not cached,
surfaced as an error); otherwise a complete `BurnArea` is assembled with the
documented neutral defaults substituted for each failed adapter — name
`"Unknown location"` (§4.2), weather `unavailable` (§4.3), all-neutral
statistics (§4.4), risk probability 0 — paired with the degraded flag.
Population, value estimate and nearby towns are supplied by the offline
neighbour computation, abstracted as arguments. -/
def assemble (wRisk wStats : ℚ) (query : ℚ × ℚ) (population : Nat)
    (valueEstimate : ℚ) (towns : List (String × Nat))
    (r : UpstreamResults) : Option (BurnArea × Bool) :=
  if allFailed r then none
  else
    let stats := validateStatistics (r.statsRaw.getD [])
    let statsFun : String → ℚ := fun k => (stats.lookup k).getD (1/2)
    let weather : Weather := match r.weather with
      | some d => Weather.snapshot d
      | none => Weather.unavailable
    let p := normalizeIngest (r.riskProbability.getD 0)
    let result := compute wRisk wStats statsFun weather p population valueEstimate
    some ({ id := 0,
            name := r.geocode.getD "Unknown location",
            coordinates := query,
            statistics := stats,
            threatRating := p,
            calculatedThreatRating := result.calculatedThreatRating,
            preliminaryFeasibilityScore := result.preliminaryFeasibilityScore,
            totalPopulation := population,
            totalValueEstimate := valueEstimate,
            lastBurnDate := "",
            weather := weather,
            nearbyTowns := towns },
          degradedFlag r)

/-- Response of the `/v1` endpoint: a single `BurnArea` object with its
degraded flag, or an error object `{ error: msg }` carried with its HTTP
status. -/
inductive V1Response where
  | single (area : BurnArea) (degraded : Bool)
  | failure (msg : String) (status : Nat)

/-- Boolean test for the error shape of a `/v1` response. -/
def V1Response.isFailure : V1Response → Bool
  | .failure _ _ => true
  | _ => false

/-- Modelled from the spec: §6 `GET /v1?lat=&lng=` and §4.1 — a cache hit
returns the cached `BurnArea` immediately with `degraded = false`; on a miss
the Orchestrator assembles from the settled upstream results; only a
fully-failed computation with no cached value returns the error object with a
non-2xx status. -/
def handleV1 (wRisk wStats : ℚ) (query : ℚ × ℚ) (population : Nat)
    (valueEstimate : ℚ) (towns : List (String × Nat))
    (cached : Option BurnArea) (r : UpstreamResults) : V1Response :=
  match cached with
  | some area => .single area false
  | none =>
    match assemble wRisk wStats query population valueEstimate towns r with
    | some (area, degraded) => .single area degraded
    | none => .failure "All upstream sources failed" 502

/-- Decidable check that every score field of a `BurnArea` lies in `[0,1]`:
threat-rating, calculated-threat-rating, preliminary-feasibility-score, and
each statistics factor. -/
def scores01 (a : BurnArea) : Bool :=
  decide (0 ≤ a.threatRating ∧ a.threatRating ≤ 1) &&
  decide (0 ≤ a.calculatedThreatRating ∧ a.calculatedThreatRating ≤ 1) &&
  decide (0 ≤ a.preliminaryFeasibilityScore ∧ a.preliminaryFeasibilityScore ≤ 1) &&
  a.statistics.all fun kv => decide (0 ≤ kv.2 ∧ kv.2 ≤ 1)

/-! ## Single-flight deduplication, modelled from the specification

Concurrency is modelled as a sequence of atomic events processed against the
bookkeeping state the Orchestrator holds for deduplication (§3 ownership,
§4.1, §5): a `request` either hits the cache, joins an in-flight computation,
or starts a new one (issuing exactly one upstream fan-out call); a `settle`
delivers the computed value to every waiting caller and caches it. -/

/-- Quantized cache key of a location query (§3, glossary). -/
abbrev CacheKey := ℚ × ℚ

/-- Modelled from the spec: the in-flight request bookkeeping owned by the
Orchestrator plus the cache, with an audit trail of upstream fan-out calls
issued and of results delivered to callers. -/
structure SFState where
  cache : List (CacheKey × BurnArea)
  inflight : List CacheKey
  waiters : List (Nat × CacheKey)
  upstreamCalls : List CacheKey
  delivered : List (Nat × BurnArea)

/-- An atomic orchestrator event: a caller requesting a key, or the single
in-flight computation for a key settling with its result. -/
inductive SFEvent where
  | request (caller : Nat) (k : CacheKey)
  | settle (k : CacheKey) (result : BurnArea)

/-- Modelled from the spec: §4.1 single-flight collapsing — a request for a
cached key is answered immediately; a request for a key already in flight
joins the waiters without any upstream call; a request for an uncached,
not-in-flight key issues one upstream fan-out call and registers the
computation; a settle caches the result and delivers it to every waiter of
that key. -/
def sfStep (s : SFState) (e : SFEvent) : SFState :=
  match e with
  | .request c k =>
    match s.cache.lookup k with
    | some v => { s with delivered := (c, v) :: s.delivered }
    | none =>
      if k ∈ s.inflight then
        { s with waiters := (c, k) :: s.waiters }
      else
        { s with inflight := k :: s.inflight,
                 waiters := (c, k) :: s.waiters,
                 upstreamCalls := k :: s.upstreamCalls }
  | .settle k v =>
    { s with cache := (k, v) :: s.cache,
             inflight := s.inflight.erase k,
             waiters := s.waiters.filter fun w => decide ¬(w.2 = k),
             delivered :=
               ((s.waiters.filter fun w => decide (w.2 = k)).map fun w => (w.1, v))
                 ++ s.delivered }

/-- Run a sequence of events from a state. -/
def sfRun (s : SFState) (es : List SFEvent) : SFState :=
  es.foldl sfStep s

/-- The empty orchestrator state: nothing cached, nothing in flight. -/
def SFState.initial : SFState :=
  { cache := [], inflight := [], waiters := [], upstreamCalls := [], delivered := [] }

/-- The §8 single-flight scenario: each caller in `callers` issues a
`resolve` for the same uncached key `k` while it is uncached (all requests
arrive before the in-flight computation settles with `v`). -/
def sfScenario (callers : List Nat) (k : CacheKey) (v : BurnArea) : SFState :=
  sfRun SFState.initial ((callers.map fun c => SFEvent.request c k) ++ [SFEvent.settle k v])

/-! ## Concrete sample inputs used by the witnesses -/

/-- Settled upstream results for the §8 scenario at `(34.05, -118.24)` with
all adapters succeeding and the Risk Oracle returning `0.82`. -/
def sampleUpstream : UpstreamResults :=
  { geocode := some "Los Angeles",
    weather := some { tempMean := [70], windMean := [5], precip := [0] },
    statsRaw := some [],
    riskProbability := some (82/100) }

/-- Upstream results with only the Weather Adapter failing. -/
def sampleWeatherFailed : UpstreamResults :=
  { geocode := some "Los Angeles",
    weather := none,
    statsRaw := some [],
    riskProbability := some (82/100) }

/-- Upstream results with every adapter failing. -/
def sampleAllFailed : UpstreamResults :=
  { geocode := none, weather := none, statsRaw := none, riskProbability := none }

/-- A concrete `BurnArea` used as the settled value in the single-flight
witness. -/
def sampleBurnArea : BurnArea :=
  { id := 0, name := "Sample", coordinates := (0, 0), statistics := [],
    threatRating := 0, calculatedThreatRating := 0,
    preliminaryFeasibilityScore := 0, totalPopulation := 0,
    totalValueEstimate := 0, lastBurnDate := "", weather := .unavailable,
    nearbyTowns := [] }

/-! ## Theorems -/

/-- Helper: `clamp01` lands in `[0,1]`. -/
theorem clamp01_mem (x : ℚ) : 0 ≤ clamp01 x ∧ clamp01 x ≤ 1 := by
  unfold clamp01
  exact ⟨le_max_left 0 _, max_le (by norm_num) (min_le_left 1 x)⟩

/-- Helper: `clamp01` is monotone. -/
theorem clamp01_mono {a b : ℚ} (h : a ≤ b) : clamp01 a ≤ clamp01 b :=
  max_le_max le_rfl (min_le_min le_rfl h)

/-- Helper: ingestion normalization maps `[0,10]` into `[0,1]`. -/
theorem normalizeIngest_mem {v : ℚ} (h0 : 0 ≤ v) (h10 : v ≤ 10) :
    0 ≤ normalizeIngest v ∧ normalizeIngest v ≤ 1 := by
  unfold normalizeIngest
  by_cases h : 1 < v
  · rw [if_pos h]
    constructor <;> linarith
  · rw [if_neg h]
    exact ⟨h0, not_lt.mp h⟩

/-- Helper: the validated statistics object carries exactly the eleven keys,
in order. -/
theorem validateStatistics_keys (raw : List (String × ℚ)) :
    (validateStatistics raw).map Prod.fst = elevenKeys := by
  simp [validateStatistics, elevenKeys]

/-- Helper: every validated statistics value lies in `[0,1]`. -/
theorem validateStatistics_values {raw : List (String × ℚ)} {kv : String × ℚ}
    (h : kv ∈ validateStatistics raw) : 0 ≤ kv.2 ∧ kv.2 ≤ 1 := by
  unfold validateStatistics at h
  rw [List.mem_map] at h
  obtain ⟨k, hk, rfl⟩ := h
  dsimp only
  cases hlk : raw.lookup k with
  | none => norm_num
  | some v =>
    dsimp only
    by_cases hv : 0 ≤ v ∧ v ≤ 1
    · rw [if_pos hv]
      exact hv
    · rw [if_neg hv]
      norm_num

/-- Helper: looking up a key present in `l` inside the paired list built over
`l` returns the paired value. -/
theorem lookup_map_pair (l : List String) (g : String → ℚ) (k : String)
    (hk : k ∈ l) : (l.map fun x => (x, g x)).lookup k = some (g k) := by
  induction l with
  | nil => cases hk
  | cons x xs ih =>
    rw [List.map_cons]
    by_cases hx : k = x
    · subst hx
      simp [List.lookup]
    · rcases List.mem_cons.mp hk with h | h
      · exact absurd h hx
      · have hbeq : (k == x) = false := beq_eq_false_iff_ne.mpr hx
        simpa [List.lookup, hbeq] using ih h

/-- C3 counterexample: the read-time `[0,10]` presentations do not all apply
the transform `10 * v`: at the stored value `1/2` the map popup feasibility
shows `9 * (1/2) + 1 = 5.5`, not `5`; and at the stored value `1` exactly the
sidebar shows `1`, not `10` (whereas at `1/2` the sidebar does show `5`). -/
theorem C3_counterexample :
    mapPopupFeasibilityValue (1/2) ≠ 10 * (1/2 : ℚ) ∧
    sidebarFeasibilityValue 1 ≠ 10 * (1 : ℚ) ∧
    sidebarFeasibilityValue (1/2) = 10 * (1/2 : ℚ) := by
  refine ⟨?_, ?_, ?_⟩ <;>
    norm_num [mapPopupFeasibilityValue, sidebarFeasibilityValue, normalizeToTen]

/-- C3 (amended): for every stored score `v` with `0 ≤ v < 1`, the sidebar
badge, the sidebar feasibility score and the map popup threat rating all
display `10 * v`, while the map popup feasibility displays `9 * v + 1`; at
`v = 1` exactly the `value < 1` guard fails and the value is displayed
unchanged (`1`, not `10`).  No presentation alters the stored value: the
transforms are pure reads. -/
theorem C3_display_transforms (v : ℚ) (h0 : 0 ≤ v) (h1 : v < 1) :
    statBadgeValue v = 10 * v ∧
    sidebarFeasibilityValue v = 10 * v ∧
    burnMapNormalizedRating v = 10 * v ∧
    mapPopupFeasibilityValue v = 9 * v + 1 ∧
    statBadgeValue 1 = 1 ∧
    mapPopupFeasibilityValue 1 = 1 := by
  refine ⟨?_, ?_, ?_, ?_, ?_, ?_⟩
  · simp [statBadgeValue, normalizeToTen, h1, mul_comm]
  · simp [sidebarFeasibilityValue, normalizeToTen, h1, mul_comm]
  · simp [burnMapNormalizedRating, h1, mul_comm]
  · simp [mapPopupFeasibilityValue, h1, mul_comm]
  · norm_num [statBadgeValue, normalizeToTen]
  · norm_num [mapPopupFeasibilityValue]

/-- Witness for C3 (amended) at the concrete stored value `1/2`. -/
theorem C3_display_transforms_witness :
    ((0:ℚ) ≤ 1/2 ∧ (1/2 : ℚ) < 1) ∧
    (statBadgeValue (1/2) = 10 * (1/2 : ℚ) ∧
     sidebarFeasibilityValue (1/2) = 10 * (1/2 : ℚ) ∧
     burnMapNormalizedRating (1/2) = 10 * (1/2 : ℚ) ∧
     mapPopupFeasibilityValue (1/2) = 9 * (1/2 : ℚ) + 1 ∧
     statBadgeValue 1 = 1 ∧
     mapPopupFeasibilityValue 1 = 1) :=
  ⟨⟨by norm_num, by norm_num⟩, C3_display_transforms (1/2) (by norm_num) (by norm_num)⟩

/-- C8 counterexample: on an area carrying only the correctly spelled key
`preliminary-feasibility-score` (value `0.7`), the misspelled lookup yields
`undefined`, and both the sidebar and the map popup rendering raise a
`TypeError` (calling `toFixed` on `undefined`) — the outcome is not a `NaN`
display. -/
theorem C8_counterexample :
    getField [("preliminary-feasibility-score", (7:ℚ)/10)]
        "preliminary-feasability-score" = JSVal.undefined ∧
    sidebarFeasibilityRender [("preliminary-feasibility-score", (7:ℚ)/10)] =
        ToFixedResult.typeError ∧
    mapPopupFeasibilityRender [("preliminary-feasibility-score", (7:ℚ)/10)] =
        ToFixedResult.typeError ∧
    ToFixedResult.typeError ≠ ToFixedResult.rendersNaN := by
  refine ⟨?_, ?_, ?_, ?_⟩ <;> decide

/-- C8 (amended): the sidebar and the map popup read the feasibility score
from the misspelled key `preliminary-feasability-score`; for every area whose
fields lack that key the lookup yields `undefined`, the `value < 1` guard is
false so the normalization passes `undefined` through, and `toFixed` on
`undefined` throws a `TypeError` — the record score under the spec-named key
is never displayed, and the failure mode is a thrown `TypeError`, not a `NaN`
display. -/
theorem C8_missing_key (fields : List (String × ℚ))
    (h : fields.lookup "preliminary-feasability-score" = none) :
    sidebarFeasibilityRender fields = ToFixedResult.typeError ∧
    mapPopupFeasibilityRender fields = ToFixedResult.typeError := by
  unfold sidebarFeasibilityRender mapPopupFeasibilityRender getField
  rw [h]
  exact ⟨rfl, rfl⟩

/-- Witness for C8 (amended) on a concrete area carrying only the correctly
spelled key. -/
theorem C8_missing_key_witness :
    ([(("preliminary-feasibility-score" : String), (7:ℚ)/10)].lookup
        "preliminary-feasability-score" = none) ∧
    (sidebarFeasibilityRender [("preliminary-feasibility-score", (7:ℚ)/10)] =
        ToFixedResult.typeError ∧
     mapPopupFeasibilityRender [("preliminary-feasibility-score", (7:ℚ)/10)] =
        ToFixedResult.typeError) :=
  ⟨by decide, C8_missing_key _ (by decide)⟩

/-- C9: the map normalizes the calculated threat rating twice — `BurnMap`
multiplies a rating below 1 by 10, and `getThreatColor` re-normalizes its
argument when it is still below 1 — so for every rating `r` in `(0, 0.1)` the
marker colour is the threshold colour of `100 * r`; in particular for
`r ≥ 0.08` the marker is the highest-threat red `#dc2626`, while the colour
for `10 * r` would be the lowest band `#22c55e`. -/
theorem C9_double_normalization (r : ℚ) (h0 : 0 < r) (h1 : r < 1/10) :
    burnMapMarkerColor r = mapThreatThresholdColor (100 * r) ∧
    (2/25 ≤ r →
      burnMapMarkerColor r = "#dc2626" ∧
      mapThreatThresholdColor (10 * r) = "#22c55e") := by
  have hr1 : r < 1 := by linarith
  have hr10 : r * 10 < 1 := by linarith
  have hmain : burnMapMarkerColor r = mapThreatThresholdColor (100 * r) := by
    unfold burnMapMarkerColor mapGetThreatColor burnMapNormalizedRating
    rw [if_pos hr1, if_pos hr10]
    have harg : r * 10 * 10 = 100 * r := by ring
    rw [harg]
  refine ⟨hmain, fun h8 => ⟨?_, ?_⟩⟩
  · rw [hmain]
    unfold mapThreatThresholdColor
    rw [if_pos (by linarith : (100:ℚ) * r ≥ 8)]
  · unfold mapThreatThresholdColor
    rw [if_neg (not_le.mpr (by linarith : (10:ℚ) * r < 8)),
        if_neg (not_le.mpr (by linarith : (10:ℚ) * r < 6)),
        if_neg (not_le.mpr (by linarith : (10:ℚ) * r < 4)),
        if_neg (not_le.mpr (by linarith : (10:ℚ) * r < 2))]

/-- Witness for C9 at the concrete rating `0.09`. -/
theorem C9_double_normalization_witness :
    ((0:ℚ) < 9/100 ∧ (9/100 : ℚ) < 1/10 ∧ (2/25 : ℚ) ≤ 9/100) ∧
    burnMapMarkerColor (9/100) = mapThreatThresholdColor (100 * (9/100 : ℚ)) ∧
    burnMapMarkerColor (9/100) = "#dc2626" ∧
    mapThreatThresholdColor (10 * (9/100 : ℚ)) = "#22c55e" := by
  have h := C9_double_normalization (9/100) (by norm_num) (by norm_num)
  exact ⟨⟨by norm_num, by norm_num, by norm_num⟩, h.1,
    (h.2 (by norm_num)).1, (h.2 (by norm_num)).2⟩

/-- C10: `getData` returns the parsed JSON body exactly when an API base URL
is configured (truthy `NEXT_PUBLIC_API_URL || API_URL`), the fetch resolved
with an ok response, and the body parsed as JSON (`parsedJson` is `some`);
in the complementary cases — no URL configured, fetch rejection, non-ok
status, or JSON parse failure — it throws and returns no value; and any value
it does return is exactly the parsed body. -/
theorem C10_getData_contract (nextPublicApiUrl apiUrlVar : Option String)
    (endpoint : String) (outcome : FetchOutcome) :
    (exceptOk (getData nextPublicApiUrl apiUrlVar endpoint outcome) =
      (jsTruthyEnv (jsOrEnv nextPublicApiUrl apiUrlVar) && (outcome.parsedJson).isSome)) ∧
    (∀ j : Json, getData nextPublicApiUrl apiUrlVar endpoint outcome = Except.ok j →
      outcome.parsedJson = some j) := by
  constructor
  · cases h : jsOrEnv nextPublicApiUrl apiUrlVar with
    | none => simp [getData, h, jsTruthyEnv, exceptOk]
    | some apiUrl =>
      cases outcome with
      | reject msg =>
        by_cases he : apiUrl.isEmpty <;>
          simp [getData, h, he, jsTruthyEnv, exceptOk, FetchOutcome.parsedJson]
      | respond ok status statusText body =>
        cases ok <;> rcases body with _ | j <;> by_cases he : apiUrl.isEmpty <;>
          simp [getData, h, he, jsTruthyEnv, exceptOk, FetchOutcome.parsedJson]
  · intro j hj
    cases h : jsOrEnv nextPublicApiUrl apiUrlVar with
    | none => simp [getData, h] at hj
    | some apiUrl =>
      by_cases he : apiUrl.isEmpty
      · simp [getData, h, he] at hj
      · cases outcome with
        | reject msg => simp [getData, h, he] at hj
        | respond ok status statusText body =>
          cases ok with
          | false => simp [getData, h, he] at hj
          | true =>
            rcases body with _ | j2
            · simp [getData, h, he] at hj
            · simp [getData, h, he] at hj
              simp [FetchOutcome.parsedJson, hj]

/-- Witness for C10 at a concrete configured URL and a successful fetch. -/
theorem C10_getData_contract_witness :
    getData (some "http://localhost:5000") none "/v1"
      (FetchOutcome.respond true 200 "OK" (some (Json.num 1))) =
      Except.ok (Json.num 1) ∧
    (FetchOutcome.respond true 200 "OK" (some (Json.num 1))).parsedJson =
      some (Json.num 1) := by
  have h := C10_getData_contract (some "http://localhost:5000") none "/v1"
    (FetchOutcome.respond true 200 "OK" (some (Json.num 1)))
  exact ⟨by rfl, h.2 (Json.num 1) (by rfl)⟩

/-- C1: for every `BurnArea` assembled from valid settled upstream results
(the risk probability arriving on `[0,1]` or pre-scaled on `[0,10]`), every
score field — threat-rating, calculated-threat-rating,
preliminary-feasibility-score, and each statistics factor — lies in `[0,1]`:
ingestion normalization divides a pre-scaled probability by 10, statistics
validation confines every factor to `[0,1]`, and the calculator clamps its
outputs. -/
theorem C1_normalization_invariant (wRisk wStats : ℚ) (query : ℚ × ℚ)
    (population : Nat) (valueEstimate : ℚ) (towns : List (String × Nat))
    (r : UpstreamResults)
    (hp0 : 0 ≤ r.riskProbability.getD 0) (hp10 : r.riskProbability.getD 0 ≤ 10) :
    ∀ ad ∈ assemble wRisk wStats query population valueEstimate towns r,
      scores01 ad.1 = true := by
  intro ad had
  rw [Option.mem_def] at had
  by_cases hA : allFailed r = true
  · simp [assemble, hA] at had
  · rw [Bool.not_eq_true] at hA
    simp only [assemble, hA, Bool.false_eq_true, if_false, Option.some.injEq] at had
    subst had
    simp only [scores01, compute, Bool.and_eq_true, decide_eq_true_eq,
      List.all_eq_true]
    refine ⟨⟨⟨?_, ?_⟩, ?_⟩, ?_⟩
    · exact ⟨(normalizeIngest_mem hp0 hp10).1, (normalizeIngest_mem hp0 hp10).2⟩
    · exact ⟨(clamp01_mem _).1, (clamp01_mem _).2⟩
    · exact ⟨(clamp01_mem _).1, (clamp01_mem _).2⟩
    · intro kv hkv
      exact validateStatistics_values hkv

/-- Witness for C1 at the §8 scenario inputs (risk probability `0.82`, all
adapters succeeding). -/
theorem C1_normalization_invariant_witness :
    ((0:ℚ) ≤ sampleUpstream.riskProbability.getD 0 ∧
      sampleUpstream.riskProbability.getD 0 ≤ 10) ∧
    ∀ ad ∈ assemble (7/10) (3/10) (3405/100, -11824/100) 1000 5
        [("Pasadena", 138000)] sampleUpstream,
      scores01 ad.1 = true := by
  refine ⟨⟨?_, ?_⟩, ?_⟩
  · norm_num [sampleUpstream]
  · norm_num [sampleUpstream]
  · exact C1_normalization_invariant (7/10) (3/10) (3405/100, -11824/100) 1000 5
      [("Pasadena", 138000)] sampleUpstream
      (by norm_num [sampleUpstream]) (by norm_num [sampleUpstream])

/-- C5: the validated Statistics object of every `BurnArea` carries exactly
the eleven named qualitative keys, and any key missing from the generator
output is filled with the neutral default `0.5` instead of failing. -/
theorem C5_eleven_statistics_keys (raw : List (String × ℚ)) :
    (validateStatistics raw).map Prod.fst = elevenKeys ∧
    elevenKeys.length = 11 ∧
    (∀ k ∈ elevenKeys, raw.lookup k = none →
      (validateStatistics raw).lookup k = some (1/2)) := by
  refine ⟨validateStatistics_keys raw, by decide, ?_⟩
  intro k hk hnone
  unfold validateStatistics
  rw [lookup_map_pair _ _ _ hk, hnone]

/-- Witness for C5 on a generator output carrying only the `safety` key:
the missing `constraints` key is filled with `0.5`. -/
theorem C5_eleven_statistics_keys_witness :
    (("constraints" : String) ∈ elevenKeys ∧
      ([(("safety" : String), (9:ℚ)/10)].lookup "constraints" = none)) ∧
    ((validateStatistics [("safety", (9:ℚ)/10)]).map Prod.fst = elevenKeys ∧
      (validateStatistics [("safety", (9:ℚ)/10)]).lookup "constraints" =
        some (1/2)) := by
  have h := C5_eleven_statistics_keys [("safety", (9:ℚ)/10)]
  exact ⟨⟨by decide, by decide⟩, h.1, h.2.2 "constraints" (by decide) (by decide)⟩

/-- C6: whenever the Weather Adapter fails (and the computation is not fully
failed), the Orchestrator still returns a record; its weather field is the
explicit `unavailable` sentinel — never a zero-filled snapshot — the response
carries `degraded = true`, and the non-weather fields are fully populated
(in particular the statistics object carries all eleven keys). -/
theorem C6_weather_degradation (wRisk wStats : ℚ) (query : ℚ × ℚ)
    (population : Nat) (valueEstimate : ℚ) (towns : List (String × Nat))
    (r : UpstreamResults) (hw : r.weather = none) (hA : allFailed r = false) :
    (assemble wRisk wStats query population valueEstimate towns r).isSome = true ∧
    ∀ ad ∈ assemble wRisk wStats query population valueEstimate towns r,
      ad.1.weather = Weather.unavailable ∧ ad.2 = true ∧
      ad.1.statistics.map Prod.fst = elevenKeys := by
  constructor
  · simp [assemble, hA]
  · intro ad had
    rw [Option.mem_def] at had
    simp only [assemble, hA, Bool.false_eq_true, if_false, Option.some.injEq] at had
    subst had
    refine ⟨?_, ?_, ?_⟩
    · simp [hw]
    · simp [degradedFlag, hw]
    · exact validateStatistics_keys _

/-- Witness for C6 with only the Weather Adapter failing. -/
theorem C6_weather_degradation_witness :
    (sampleWeatherFailed.weather = none ∧ allFailed sampleWeatherFailed = false) ∧
    ((assemble (7/10) (3/10) (3405/100, -11824/100) 1000 5 []
        sampleWeatherFailed).isSome = true ∧
      ∀ ad ∈ assemble (7/10) (3/10) (3405/100, -11824/100) 1000 5 []
          sampleWeatherFailed,
        ad.1.weather = Weather.unavailable ∧ ad.2 = true ∧
        ad.1.statistics.map Prod.fst = elevenKeys) :=
  ⟨⟨rfl, rfl⟩, C6_weather_degradation (7/10) (3/10) (3405/100, -11824/100) 1000 5 []
    sampleWeatherFailed rfl rfl⟩

/-- C2: `GET /v1` for a point resolves to exactly one `BurnArea` object (the
`single` shape, never a collection), and it yields the error object with a
non-2xx status precisely when every upstream source failed and no cached
value exists for the key. -/
theorem C2_v1_single_or_error (wRisk wStats : ℚ) (query : ℚ × ℚ)
    (population : Nat) (valueEstimate : ℚ) (towns : List (String × Nat))
    (cached : Option BurnArea) (r : UpstreamResults) :
    ((handleV1 wRisk wStats query population valueEstimate towns cached r).isFailure =
      (cached.isNone && allFailed r)) ∧
    (∀ msg status,
      handleV1 wRisk wStats query population valueEstimate towns cached r =
        V1Response.failure msg status → ¬(200 ≤ status ∧ status < 300)) := by
  constructor
  · cases cached with
    | some a => simp [handleV1, V1Response.isFailure]
    | none =>
      by_cases hA : allFailed r = true
      · simp [handleV1, assemble, hA, V1Response.isFailure]
      · rw [Bool.not_eq_true] at hA
        simp [handleV1, assemble, hA, V1Response.isFailure]
  · intro msg status h
    cases cached with
    | some a => simp [handleV1] at h
    | none =>
      by_cases hA : allFailed r = true
      · simp only [handleV1, assemble, hA, if_true, V1Response.failure.injEq] at h
        obtain ⟨-, hst⟩ := h
        omega
      · rw [Bool.not_eq_true] at hA
        simp [handleV1, assemble, hA] at h

/-- Witness for C2: with every adapter failed and no cached value, `/v1`
returns the error object with status 502, which is not 2xx. -/
theorem C2_v1_single_or_error_witness :
    handleV1 (7/10) (3/10) (0, 0) 0 0 [] none sampleAllFailed =
      V1Response.failure "All upstream sources failed" 502 ∧
    ¬(200 ≤ 502 ∧ 502 < 300) :=
  ⟨rfl, (C2_v1_single_or_error (7/10) (3/10) (0, 0) 0 0 [] none
    sampleAllFailed).2 "All upstream sources failed" 502 rfl⟩

/-- C4: with nonnegative configuration weights, the calculated threat rating
produced by the Composite Score Calculator is monotone in the risk
probability (all other arguments fixed) and monotone in each single
statistics factor (the other factors and all other arguments fixed). -/
theorem C4_compute_monotonic (wRisk wStats : ℚ) (w : Weather) (population : Nat)
    (valueEstimate : ℚ) (hwR : 0 ≤ wRisk) (hwS : 0 ≤ wStats) :
    (∀ (f : String → ℚ) (p₁ p₂ : ℚ), p₁ ≤ p₂ →
      (compute wRisk wStats f w p₁ population valueEstimate).calculatedThreatRating ≤
      (compute wRisk wStats f w p₂ population valueEstimate).calculatedThreatRating) ∧
    (∀ (p : ℚ) (f₁ f₂ : String → ℚ) (k : String), k ∈ elevenKeys →
      f₁ k ≤ f₂ k → (∀ k2, k2 ≠ k → f₁ k2 = f₂ k2) →
      (compute wRisk wStats f₁ w p population valueEstimate).calculatedThreatRating ≤
      (compute wRisk wStats f₂ w p population valueEstimate).calculatedThreatRating) := by
  constructor
  · intro f p₁ p₂ hp
    simp only [compute]
    apply clamp01_mono
    have hmul := mul_le_mul_of_nonneg_left hp hwR
    linarith
  · intro p f₁ f₂ k hk h12 hfix
    simp only [compute]
    apply clamp01_mono
    have hsum : (elevenKeys.map f₁).sum ≤ (elevenKeys.map f₂).sum := by
      apply List.sum_le_sum
      intro i hi
      by_cases hik : i = k
      · subst hik
        exact h12
      · exact le_of_eq (hfix i hik)
    have hdiv : (elevenKeys.map f₁).sum / 11 ≤ (elevenKeys.map f₂).sum / 11 := by
      linarith
    have hmul := mul_le_mul_of_nonneg_left hdiv hwS
    linarith

/-- Witness for C4: concrete instances of both monotonicity directions with
weights `0.7`/`0.3`, raising the risk probability from `0.5` to `0.8` and the
`safety` factor from `0.5` to `0.75`. -/
theorem C4_compute_monotonic_witness :
    ((0:ℚ) ≤ 7/10 ∧ (0:ℚ) ≤ 3/10 ∧ (1:ℚ)/2 ≤ 8/10 ∧
      ("safety" : String) ∈ elevenKeys) ∧
    ((compute (7/10) (3/10) (fun _ => 1/2) Weather.unavailable (1/2) 0
        0).calculatedThreatRating ≤
      (compute (7/10) (3/10) (fun _ => 1/2) Weather.unavailable (8/10) 0
        0).calculatedThreatRating) ∧
    ((compute (7/10) (3/10) (fun _ => 1/2) Weather.unavailable (1/2) 0
        0).calculatedThreatRating ≤
      (compute (7/10) (3/10) (fun k => if k = "safety" then 3/4 else 1/2)
        Weather.unavailable (1/2) 0 0).calculatedThreatRating) := by
  have h := C4_compute_monotonic (7/10) (3/10) Weather.unavailable 0 0
    (by norm_num) (by norm_num)
  refine ⟨⟨by norm_num, by norm_num, by norm_num, by decide⟩,
    h.1 (fun _ => 1/2) (1/2) (8/10) (by norm_num),
    h.2 (1/2) (fun _ => 1/2) (fun k => if k = "safety" then 3/4 else 1/2)
      "safety" (by decide) (by simp; norm_num) ?_⟩
  intro k2 hk2
  simp [hk2]

/-- Helper: running a concatenation of event lists is sequential composition. -/
theorem sfRun_append (s : SFState) (es₁ es₂ : List SFEvent) :
    sfRun s (es₁ ++ es₂) = sfRun (sfRun s es₁) es₂ := by
  simp [sfRun, List.foldl_append]

/-- Helper: a request for a key already in flight (and not cached) only joins
the waiters — no upstream call, no new in-flight entry. -/
theorem sfStep_request_join (c : Nat) (k : CacheKey)
    (ws : List (Nat × CacheKey)) (us : List CacheKey)
    (ds : List (Nat × BurnArea)) :
    sfStep ⟨[], [k], ws, us, ds⟩ (SFEvent.request c k) =
      ⟨[], [k], (c, k) :: ws, us, ds⟩ := by
  simp [sfStep]

/-- Helper: any number of further requests for a key with a computation in
flight accumulate as waiters and leave the cache, in-flight set and upstream
call log unchanged. -/
theorem sfRun_requests (cs : List Nat) (k : CacheKey)
    (ws : List (Nat × CacheKey)) (us : List CacheKey)
    (ds : List (Nat × BurnArea)) :
    sfRun ⟨[], [k], ws, us, ds⟩ (cs.map fun c => SFEvent.request c k)
      = ⟨[], [k], (cs.map fun c => ((c : Nat), k)).reverse ++ ws, us, ds⟩ := by
  induction cs generalizing ws with
  | nil => simp [sfRun]
  | cons c cs ih =>
    rw [List.map_cons]
    have hstep : sfRun ⟨[], [k], ws, us, ds⟩
        (SFEvent.request c k :: cs.map fun c => SFEvent.request c k)
        = sfRun (sfStep ⟨[], [k], ws, us, ds⟩ (SFEvent.request c k))
            (cs.map fun c => SFEvent.request c k) := rfl
    rw [hstep, sfStep_request_join, ih]
    simp

/-- C7: for every uncached key, when `N ≥ 2` callers concurrently resolve that
key before the single in-flight computation settles, exactly one upstream
fan-out call is issued, and every caller is delivered the one settled
result. -/
theorem C7_single_flight (callers : List Nat) (k : CacheKey) (v : BurnArea)
    (hN : 2 ≤ callers.length) :
    (sfScenario callers k v).upstreamCalls.count k = 1 ∧
    ∀ c ∈ callers, (c, v) ∈ (sfScenario callers k v).delivered := by
  cases callers with
  | nil => simp at hN
  | cons c cs =>
    have hfirst : sfStep SFState.initial (SFEvent.request c k) =
        ⟨[], [k], [(c, k)], [k], []⟩ := by
      simp [sfStep, SFState.initial]
    have hreq : sfRun SFState.initial ((c :: cs).map fun c => SFEvent.request c k)
        = ⟨[], [k], (cs.map fun c' => ((c' : Nat), k)).reverse ++ [(c, k)], [k], []⟩ := by
      rw [List.map_cons]
      have hcons : sfRun SFState.initial
          (SFEvent.request c k :: cs.map fun c => SFEvent.request c k)
          = sfRun (sfStep SFState.initial (SFEvent.request c k))
              (cs.map fun c => SFEvent.request c k) := rfl
      rw [hcons, hfirst, sfRun_requests]
    have hsc : sfScenario (c :: cs) k v =
        sfStep ⟨[], [k], (cs.map fun c' => ((c' : Nat), k)).reverse ++ [(c, k)], [k], []⟩
          (SFEvent.settle k v) := by
      unfold sfScenario
      rw [sfRun_append, hreq]
      rfl
    rw [hsc]
    constructor
    · simp [sfStep]
    · intro c' hc'
      simp only [sfStep, List.lookup_nil]
      refine List.mem_append.mpr (Or.inl ?_)
      refine List.mem_map.mpr ⟨(c', k), List.mem_filter.mpr ⟨?_, by simp⟩, rfl⟩
      rcases List.mem_cons.mp hc' with h | h
      · subst h
        exact List.mem_append.mpr (Or.inr (by simp))
      · refine List.mem_append.mpr (Or.inl ?_)
        rw [List.mem_reverse, List.mem_map]
        exact ⟨c', h, rfl⟩

/-- Witness for C7: two concurrent callers for the uncached key `(0,0)`. -/
theorem C7_single_flight_witness :
    (2 ≤ ([1, 2] : List Nat).length) ∧
    ((sfScenario [1, 2] (0, 0) sampleBurnArea).upstreamCalls.count (0, 0) = 1 ∧
      ∀ c ∈ ([1, 2] : List Nat),
        (c, sampleBurnArea) ∈ (sfScenario [1, 2] (0, 0) sampleBurnArea).delivered) :=
  ⟨by decide, C7_single_flight [1, 2] (0, 0) sampleBurnArea (by decide)⟩

end RebootTheEarth
